import Mathlib

/-!
Shallow embedding of the demand-forecasting and replenishment core of the
Multi-Agent-Procurement-System repository, together with theorems settling
the specification claims about it.

Conventions of the embedding:
* Python machine integers are `ℤ` (inventory CSV fields pass through bare
  `int()` in `models/data_models.py`, so no sign constraint holds);
  quantities produced as `max(0, ...)` are `ℕ` where that is forced.
* Python floats are modelled as exact rationals `ℚ`; `int(x)` is truncation
  toward zero (`pyInt`), `x / y` is exact division.
* Calls into external libraries (statsmodels `ExponentialSmoothing.fit`,
  scikit-learn `LinearRegression.fit`, `pd.to_datetime`) are modelled as
  oracle parameters: the value the library returned, `none`/`Option` when
  the call raised inside the source's `try` block.
-/

namespace Procurement

/-- Python `int(x)` applied to a float: truncation toward zero. -/
def pyInt (x : ℚ) : ℤ := if x < 0 then ⌈x⌉ else ⌊x⌋

/-- Constant `SAFETY_BUFFER` from `config/settings.py` line 27. -/
def SAFETY_BUFFER : ℤ := 500

/-- Constant `SAFETY_STOCK_PERCENTAGE` from `Agent3_replenishmentAdvisor.py` line 15. -/
def SAFETY_STOCK_PERCENTAGE : ℚ := 2 / 10

/-- Constant `MINIMUM_ORDER_QUANTITY` from `Agent3_replenishmentAdvisor.py` line 16. -/
def MINIMUM_ORDER_QUANTITY : ℤ := 100

/-- Embeds `DemandForecaster._calculate_confidence` (`Agent1C_forecaster.py` lines 301-312):
the five-tier MAPE-to-confidence step table. -/
def calculate_confidence (mape : ℚ) : ℚ :=
  if mape < 10 then 95 / 100
  else if mape < 15 then 85 / 100
  else if mape < 20 then 75 / 100
  else if mape < 30 then 65 / 100
  else 50 / 100

/-- The inline confidence mapping of `DataHarmonizerAndForecaster.execute`
(`Agent1_complete.py` lines 144-151): only three breakpoints, every MAPE of
20 or more maps to 0.65 (there is no 0.50 tier in this implementation). -/
def completeConfidence (mape : ℚ) : ℚ :=
  if mape < 10 then 95 / 100
  else if mape < 15 then 85 / 100
  else if mape < 20 then 75 / 100
  else 65 / 100

/-- Embeds `InventoryItem` from `models/data_models.py`; only the fields the core
reads.  All numeric fields arrive through bare `int()` coercions in
`inventory_from_dict`, hence `ℤ` with no sign constraint. -/
structure InventoryItem where
  item_code : String
  item_name : String
  current_quantity : ℤ
  reorder_point : ℤ
  max_capacity : ℤ
  safety_stock : ℤ
  lead_time_days : ℤ
deriving Repr, DecidableEq

/-- Embeds `StockStatus` from `models/data_models.py` (numeric/status fields). -/
structure StockStatus where
  item_code : String
  item_name : String
  current_quantity : ℤ
  reorder_point : ℤ
  needs_reorder : Bool
  shortage_amount : ℤ
  status : String
  priority : Option String
deriving Repr, DecidableEq

/-- The stock-classification block of `StockMonitor.execute`
(`Agent2_stockMonitor.py` lines 58-94): needs_reorder, shortage, and the
first-match status/priority chain. -/
def stockStatusOf (item : InventoryItem) : StockStatus :=
  let current_qty : ℤ := item.current_quantity
  let reorder_point : ℤ := item.reorder_point
  let safety_stock : ℤ := item.safety_stock
  let needs_reorder := decide (current_qty ≤ reorder_point)
  let shortage := max 0 (reorder_point - current_qty)
  let sp : String × Option String :=
    if current_qty ≤ 0 then ("OUT_OF_STOCK", some "URGENT")
    else if current_qty < safety_stock then ("CRITICAL", some "URGENT")
    else if (current_qty : ℚ) < (reorder_point : ℚ) * (5 / 10) then ("LOW", some "HIGH")
    else if current_qty ≤ reorder_point then ("LOW", some "MEDIUM")
    else ("ADEQUATE", none)
  { item_code := item.item_code
    item_name := item.item_name
    current_quantity := current_qty
    reorder_point := reorder_point
    needs_reorder := needs_reorder
    shortage_amount := shortage
    status := sp.1
    priority := sp.2 }

/-- Result of `StockMonitor.execute`: either a structured error dict
(`error` discriminant plus `message`) or the stock status with the
inventory item. -/
inductive StockResult where
  | error (kind msg : String)
  | ok (st : StockStatus) (item : InventoryItem)
deriving Repr, DecidableEq

/-- Embeds `StockMonitor.execute` (`Agent2_stockMonitor.py` lines 21-106): empty
inventory and missing item yield structured error dicts; otherwise the
first matching row is classified. -/
def stockMonitorExecute (inventory : List InventoryItem) (item_code : String) :
    StockResult :=
  if inventory.isEmpty then
    .error "no_inventory_data" "Inventory database is empty or could not be loaded"
  else
    match inventory.filter (fun r => r.item_code = item_code) with
    | [] => .error "item_not_found"
        ("Item " ++ item_code ++ " not found in inventory database")
    | item :: _ => .ok (stockStatusOf item) item

/-- Embeds `StockMonitor.check_all_low_stock_items` (`Agent2_stockMonitor.py`
lines 108-162): keeps only rows with `current_qty <= reorder_point`; note
the source computes `shortage_amount = reorder_point - current_qty` here
without the `max(0, ...)` of `execute`. -/
def check_all_low_stock_items (inventory : List InventoryItem) : List StockStatus :=
  inventory.filterMap fun item =>
    let current_qty : ℤ := item.current_quantity
    let reorder_point : ℤ := item.reorder_point
    let safety_stock : ℤ := item.safety_stock
    if current_qty ≤ reorder_point then
      let sp : String × Option String :=
        if current_qty ≤ 0 then ("OUT_OF_STOCK", some "URGENT")
        else if current_qty < safety_stock then ("CRITICAL", some "URGENT")
        else if (current_qty : ℚ) < (reorder_point : ℚ) * (5 / 10) then ("LOW", some "HIGH")
        else ("LOW", some "MEDIUM")
      some { item_code := item.item_code
             item_name := item.item_name
             current_quantity := current_qty
             reorder_point := reorder_point
             needs_reorder := true
             shortage_amount := reorder_point - current_qty
             status := sp.1
             priority := sp.2 }
    else none

/-- The calculation dict built by
`ReplenishmentAdvisor._calculate_order_quantity`
(`Agent3_replenishmentAdvisor.py` lines 128-172). -/
structure OrderCalc where
  predicted_demand : ℤ
  current_stock : ℤ
  base_need : ℤ
  safety_stock : ℤ
  lead_time_demand : ℤ
  total_quantity : ℤ
  final_quantity : ℤ
  capped : Bool
  max_capacity : ℤ
  available_space : ℤ
deriving Repr, DecidableEq

/-- Embeds `ReplenishmentAdvisor._calculate_order_quantity`
(`Agent3_replenishmentAdvisor.py` lines 128-172).  `predicted_demand` is a
`ℕ` because `DemandForecast.predicted_demand` is produced as
`max(0, int(...))`; the stock and capacity figures come from the inventory
CSV and stay `ℤ`.  `int(...)` on the float products is `pyInt`. -/
def calculate_order_quantity (predicted_demand : ℕ) (current_stock : ℤ)
    (max_capacity : ℤ) (lead_time_days : ℤ) : OrderCalc :=
  let base_need : ℤ := max 0 ((predicted_demand : ℤ) - current_stock)
  let safety_stock : ℤ :=
    max SAFETY_BUFFER (pyInt ((predicted_demand : ℚ) * SAFETY_STOCK_PERCENTAGE))
  let daily_demand : ℚ := (predicted_demand : ℚ) / 30
  let lead_time_demand : ℤ := pyInt (daily_demand * (lead_time_days : ℚ))
  let total_quantity := base_need + safety_stock + lead_time_demand
  let available_space := max_capacity - current_stock
  let fc : ℤ × Bool :=
    if total_quantity > available_space then (available_space, true)
    else (total_quantity, false)
  let final_quantity :=
    if fc.1 < MINIMUM_ORDER_QUANTITY then MINIMUM_ORDER_QUANTITY else fc.1
  { predicted_demand := (predicted_demand : ℤ)
    current_stock := current_stock
    base_need := base_need
    safety_stock := safety_stock
    lead_time_demand := lead_time_demand
    total_quantity := total_quantity
    final_quantity := final_quantity
    capped := fc.2
    max_capacity := max_capacity
    available_space := available_space }

/-- Python exceptions that can escape the embedded functions. -/
inductive PyExn where
  | zeroDivisionError
  | nameError (name : String)
deriving Repr, DecidableEq

/-- Python float division, raising `ZeroDivisionError` on a zero divisor. -/
def pyDiv (a b : ℚ) : Except PyExn ℚ :=
  if b = 0 then .error .zeroDivisionError else .ok (a / b)

/-- Embeds `ReplenishmentAdvisor._determine_urgency`
(`Agent3_replenishmentAdvisor.py` lines 174-195): days of cover with the
999-day sentinel when daily demand is not positive, then the first-match
urgency chain. -/
def determine_urgency (current_qty reorder_point : ℤ) (predicted_demand : ℕ)
    (lead_time_days : ℤ) : Except PyExn String := do
  let daily_demand : ℚ := (predicted_demand : ℚ) / 30
  let days_remaining ←
    if 0 < daily_demand then pyDiv (current_qty : ℚ) daily_demand else pure 999
  if days_remaining < (lead_time_days : ℚ) then pure "URGENT"
  else if current_qty < reorder_point then pure "HIGH"
  else if days_remaining < 14 then pure "MEDIUM"
  else pure "LOW"

/-- Embeds `int(len(ts_data) * 0.8)` from `Agent1_complete.py` line 77: the
chronological 80/20 split index (float truncation coincides with
`⌊0.8 n⌋ = 4n/5` for every series length arising here). -/
def pySplitIdx (n : ℕ) : ℕ := 4 * n / 5

/-- Arithmetic mean of a list of floats (`pandas.Series.mean`). -/
def listMean (xs : List ℚ) : ℚ := xs.sum / (xs.length : ℚ)

/-- The constant `np.finfo(np.float64).eps`, the guard denominator used by
scikit-learn's `mean_absolute_percentage_error`. -/
def epsFloat : ℚ := 1 / 2 ^ 52

/-- scikit-learn `mean_absolute_percentage_error(y_true, y_pred)`:
mean over samples of `|t - p| / max(eps, |t|)` (a fraction, not yet a
percentage). -/
def mean_absolute_percentage_error (yTrue yPred : List ℚ) : ℚ :=
  listMean ((yTrue.zip yPred).map fun tp => |tp.1 - tp.2| / max epsFloat |tp.1|)

/-- One model's entry in the `models` list of
`DataHarmonizerAndForecaster.execute` (`Agent1_complete.py` lines 81-107). -/
structure ModelScore where
  name : String
  mape : ℚ
deriving Repr, DecidableEq

/-- Python `min(models, key=lambda x: x['mape'])` starting from a first
candidate: keeps the current best and replaces it only on a strictly
smaller key, so the earliest minimum wins ties. -/
def pyMinBy (m : ModelScore) : List ModelScore → ModelScore
  | [] => m
  | x :: xs => pyMinBy (if x.mape < m.mape then x else m) xs

/-- One row of the historical-orders table for one item, after
`pd.to_datetime` has parsed the date column: `order_date` is the calendar
month as a linear index (`year * 12 + month`), `none` for a null;
`quantity_ordered` is the quantity, `none` for a null. -/
structure OrderRow where
  order_date : Option ℤ
  quantity_ordered : Option ℚ
deriving Repr, DecidableEq

/-- Step 3 of `DataHarmonizerAndForecaster.execute` (`Agent1_complete.py`
lines 61-63): drop rows with a null date or quantity, keep strictly
positive quantities. -/
def cleanOrderRows (rows : List OrderRow) : List (ℤ × ℚ) :=
  rows.filterMap fun r =>
    match r.order_date, r.quantity_ordered with
    | some d, some q => if 0 < q then some (d, q) else none
    | _, _ => none

/-- Insert a month key into an ascending duplicate-free list of month keys. -/
def insertMonth (m : ℤ) : List ℤ → List ℤ
  | [] => [m]
  | x :: xs =>
    if m < x then m :: x :: xs
    else if m = x then x :: xs
    else x :: insertMonth m xs

/-- The distinct month keys of the rows, ascending (`groupby` sorts its
keys). -/
def sortedMonths (rows : List (ℤ × ℚ)) : List ℤ :=
  rows.foldl (fun acc r => insertMonth r.1 acc) []

/-- Step 4 of `DataHarmonizerAndForecaster.execute` (`Agent1_complete.py`
lines 66-68): group the rows by calendar month and sum the quantity,
yielding the monthly series in ascending month order. -/
def aggregateMonthly (rows : List (ℤ × ℚ)) : List (ℤ × ℚ) :=
  (sortedMonths rows).map fun m =>
    (m, ((rows.filter (fun r => r.1 = m)).map (fun r => r.2)).sum)

/-- Embeds `DemandForecast` from `models/data_models.py`. -/
structure DemandForecast where
  item_code : String
  predicted_demand : ℤ
  confidence : ℚ
  model_used : String
  historical_average : ℤ
  trend : String
  seasonality_detected : Bool
deriving Repr, DecidableEq

/-- Outcomes of the external-library calls inside
`DataHarmonizerAndForecaster.execute`, each wrapped in `try/except` in the
source: the predictions the library returned, or `none` when the call
raised. -/
structure A1Oracles where
  esTest : Option (List ℚ)
  lrTest : Option (List ℚ)
  esFinal : Option ℚ
  lrFinal : Option ℚ

/-- The success dict returned by `DataHarmonizerAndForecaster.execute`
(`Agent1_complete.py` lines 166-175). -/
structure A1Success where
  forecast : DemandForecast
  model_comparison : List ModelScore
  best_model : ModelScore
  months_of_data : ℕ
  avg_monthly_demand : ℤ
  trend : String
deriving Repr, DecidableEq

/-- Result of `DataHarmonizerAndForecaster.execute`: the error dict
(`{"error": msg}`) or the success dict. -/
inductive A1Result where
  | error (msg : String)
  | ok (out : A1Success)
deriving Repr, DecidableEq

/-- Ordinary least-squares slope of `ys` against the time index
`0, 1, ...` — the degree-1 coefficient `np.polyfit(...)[0]` of
`Agent1_complete.py` line 134. -/
def olsSlope (ys : List ℚ) : ℚ :=
  let n : ℚ := (ys.length : ℚ)
  let idx : List ℚ := (List.range ys.length).map fun i => (i : ℚ)
  let sx := idx.sum
  let sy := ys.sum
  let sxy := ((idx.zip ys).map fun p => p.1 * p.2).sum
  let sxx := (idx.map fun x => x * x).sum
  (n * sxy - sx * sy) / (n * sxx - sx * sx)

/-- The last `min(3, length)` entries of a list (`series[-3:]`). -/
def lastThree (xs : List ℚ) : List ℚ := xs.drop (xs.length - 3)

/-- Steps 5 onward of `DataHarmonizerAndForecaster.execute`
(`Agent1_complete.py` lines 74-175), given the monthly quantity series:
score the three models on the 80/20 chronological split (sentinel 999.0
when a library call raised), pick the lowest MAPE, refit the winner on the
full series for the final quantity (falling back to the series mean if the
final refit raised), floor at zero, detect the trend and map MAPE to
confidence with this file's three-breakpoint table. -/
def forecastFromSeries (item_code : String) (ts : List ℚ) (o : A1Oracles) :
    A1Success :=
  let split := pySplitIdx ts.length
  let train := ts.take split
  let test := ts.drop split
  let ma_pred := List.replicate test.length (listMean (lastThree train))
  let ma : ModelScore :=
    ⟨"Moving Average", mean_absolute_percentage_error test ma_pred * 100⟩
  let es : ModelScore :=
    match o.esTest with
    | some preds =>
      ⟨"Exponential Smoothing", mean_absolute_percentage_error test preds * 100⟩
    | none => ⟨"Exponential Smoothing", 999⟩
  let lr : ModelScore :=
    match o.lrTest with
    | some preds =>
      ⟨"Linear Regression", mean_absolute_percentage_error test preds * 100⟩
    | none => ⟨"Linear Regression", 999⟩
  let models := [ma, es, lr]
  let best := pyMinBy ma [es, lr]
  let fq : ℤ :=
    if best.name = "Moving Average" then pyInt (listMean (lastThree ts))
    else if best.name = "Exponential Smoothing" then
      match o.esFinal with
      | some v => pyInt v
      | none => pyInt (listMean ts)
    else
      match o.lrFinal with
      | some v => pyInt v
      | none => pyInt (listMean ts)
  let forecast_qty := max 0 fq
  let slope := olsSlope ts
  let threshold := listMean ts * (5 / 100)
  let trend :=
    if slope > threshold then "increasing"
    else if slope < -threshold then "decreasing"
    else "stable"
  let confidence := completeConfidence best.mape
  { forecast :=
      { item_code := item_code
        predicted_demand := forecast_qty
        confidence := confidence
        model_used := best.name
        historical_average := pyInt (listMean ts)
        trend := trend
        seasonality_detected := false }
    model_comparison := models
    best_model := best
    months_of_data := ts.length
    avg_monthly_demand := pyInt (listMean ts)
    trend := trend }

/-- Embeds `DataHarmonizerAndForecaster.execute` (`Agent1_complete.py` lines
47-175) from the point where the item's rows have been loaded: clean,
aggregate by month, fail with the insufficient-data error naming the
month count when fewer than 6 months remain, otherwise forecast. -/
def harmonizerForecasterExecute (item_code : String) (rows : List OrderRow)
    (o : A1Oracles) : A1Result :=
  let df_monthly := aggregateMonthly (cleanOrderRows rows)
  if df_monthly.length < 6 then
    .error ("Need 6+ months, found " ++ toString df_monthly.length ++ " months")
  else
    .ok (forecastFromSeries item_code (df_monthly.map fun r => r.2) o)

/-- The local names in scope when the body of
`DemandForecaster.execute` (`Agent1C_forecaster.py` lines 25-114) starts
executing: exactly its parameters.  No assignment precedes line 27. -/
def agent1C_paramScope : List String := ["self", "df", "schema", "forecast_days"]

/-- Embeds `DemandForecaster.execute` (`Agent1C_forecaster.py` lines 25-114).
Python resolves each name when the statement runs; the body's first
statement (line 27) interpolates `item_code` into the `log_start` message,
and `item_code` is neither a parameter nor assigned earlier, so the
statement raises `NameError`, and the body has no `try/except` to stop it
escaping `execute`.  The embedding checks the name against the actual
scope; the branch where the lookup would succeed is never reached (were it
reached, line 35 reads `cleaned_df`, likewise unbound). -/
def demandForecasterExecute (df : List OrderRow) (schema : List (String × String))
    (forecast_days : ℤ) : Except PyExn A1Success :=
  if agent1C_paramScope.contains "item_code" then
    .error (.nameError "cleaned_df")
  else
    .error (.nameError "item_code")

/-- One row of the raw table the `DataCleaner` works on, restricted to the
columns the cleaning steps inspect: the pandas row label `idx`, the raw
date cell (`none` for a null cell) and the quantity cell after numeric
coercion (`none` for a null or non-numeric cell). -/
structure CRow where
  idx : ℕ
  date : Option String
  qty : Option ℚ
deriving Repr, DecidableEq

/-- The column values of a row, as compared by `drop_duplicates` (the
pandas index label does not participate). -/
def CRow.cells (r : CRow) : Option String × Option ℚ := (r.date, r.qty)

/-- Step 1 of `DataCleaner.execute` (`Agent1B_cleaner.py` line 46):
`drop_duplicates()`, keeping the first occurrence of each row value. -/
def dropDuplicates (rows : List CRow) : List CRow :=
  (rows.foldl
    (fun (acc : List CRow × List (Option String × Option ℚ)) r =>
      if r.cells ∈ acc.2 then acc else (acc.1 ++ [r], r.cells :: acc.2))
    ([], [])).1

/-- Step 2 of `DataCleaner.execute` (`DataCleaner._standardize_dates`,
`Agent1B_cleaner.py` lines 76-98): `pd.to_datetime(..., errors='coerce')`
followed by `strftime`, modelled by an oracle `parseDate` for the pandas
parser; unparseable or null dates become null. -/
def standardizeDates (parseDate : String → Option String) (rows : List CRow) :
    List CRow :=
  rows.map fun r => { r with date := r.date.bind parseDate }

/-- Linear interpolation of the null entries of a positional series,
as `pandas.Series.interpolate(method='linear')`: interior nulls are
interpolated between the nearest valid neighbours, trailing nulls take the
last valid value, leading nulls stay null. -/
def interpolateAt (valids : List (ℕ × ℚ)) (i : ℕ) : Option ℚ :=
  match (valids.filter fun p => p.1 < i).getLast?, (valids.filter fun p => i < p.1).head? with
  | none, _ => none
  | some (_, a), none => some a
  | some (j, a), some (k, b) =>
    some (a + (b - a) * (((i : ℚ) - (j : ℚ)) / ((k : ℚ) - (j : ℚ))))

/-- Models `pandas.Series.interpolate(method='linear')` over the whole column. -/
def interpolateLinear (qs : List (Option ℚ)) : List (Option ℚ) :=
  let valids := qs.enum.filterMap fun p => p.2.map fun v => (p.1, v)
  qs.enum.map fun p =>
    match p.2 with
    | some v => some v
    | none => interpolateAt valids p.1

/-- Step 3 of `DataCleaner.execute` (`DataCleaner._handle_missing_values`,
`Agent1B_cleaner.py` lines 100-122): drop rows with null dates; then
interpolate the quantity column if it has one or two nulls, otherwise drop
the null-quantity rows.  Returns the rows together with the
`nulls_handled` counter the source accumulates. -/
def handleMissingValues (rows : List CRow) : List CRow × ℕ :=
  let kept := rows.filter fun r => r.date.isSome
  let droppedDates := rows.length - kept.length
  let qtyNulls := (kept.filter fun r => r.qty.isNone).length
  if 0 < qtyNulls ∧ qtyNulls ≤ 2 then
    ((kept.zip (interpolateLinear (kept.map fun r => r.qty))).map
       fun p => { p.1 with qty := p.2 },
     droppedDates + qtyNulls)
  else
    let kept2 := kept.filter fun r => r.qty.isSome
    (kept2, droppedDates + (kept.length - kept2.length))

/-- Insert into an ascending list (insertion sort step). -/
def insertQ (x : ℚ) : List ℚ → List ℚ
  | [] => [x]
  | y :: ys => if x ≤ y then x :: y :: ys else y :: insertQ x ys

/-- Ascending sort of a list of rationals. -/
def sortQ (xs : List ℚ) : List ℚ := xs.foldr insertQ []

/-- Models `pandas.Series.quantile(q)` with the default linear interpolation over
the non-null values: on the ascending values `v_0 … v_{n-1}`, with
`h = (n-1)·q`, returns `v_⌊h⌋ + (h - ⌊h⌋)·(v_⌈h⌉ - v_⌊h⌋)`; `none` when
there are no values (pandas returns NaN). -/
def quantileLinear (xs : List ℚ) (q : ℚ) : Option ℚ :=
  match sortQ xs with
  | [] => none
  | v :: vs =>
    let s := v :: vs
    let h : ℚ := ((s.length - 1 : ℕ) : ℚ) * q
    let lo := (⌊h⌋).toNat
    let hi := (⌈h⌉).toNat
    let a := s.getD lo v
    let b := s.getD hi v
    some (a + (h - (lo : ℚ)) * (b - a))

/-- One entry of the `outliers_detected` list
(`Agent1B_cleaner.py` lines 158-162). -/
structure OutlierRec where
  row_index : ℕ
  value : ℚ
  reason : String
deriving Repr, DecidableEq

/-- Embeds `DataCleaner._detect_outliers` (`Agent1B_cleaner.py` lines 124-167):
compute Q1/Q3/IQR and the median of the quantity column, flag the rows
whose quantity falls below `Q1 - 3·IQR`, above `Q3 + 3·IQR`, or above
`10×` the median, and record the row label, the value and a reason for
each.  Null quantities are never flagged (NaN comparisons are false), and
an empty column yields no outliers (the NaN bounds compare false).  The
source formats the numbers in the reason with `:.0f`; the embedding keeps
them exact. -/
def detect_outliers (rows : List CRow) : List OutlierRec :=
  let vals := rows.filterMap CRow.qty
  match quantileLinear vals (1/4), quantileLinear vals (3/4),
      quantileLinear vals (1/2) with
  | some q1, some q3, some median_qty =>
    let iqr := q3 - q1
    let lower_bound := q1 - 3 * iqr
    let upper_bound := q3 + 3 * iqr
    let extreme_threshold := median_qty * 10
    rows.filterMap fun r =>
      match r.qty with
      | none => none
      | some v =>
        if v < lower_bound ∨ v > upper_bound ∨ v > extreme_threshold then
          some { row_index := r.idx
                 value := v
                 reason :=
                   if v > extreme_threshold then
                     "Extreme value: " ++ toString v ++ " (>10x median of "
                       ++ toString median_qty ++ ")"
                   else if v > upper_bound then
                     "High value: " ++ toString v ++ " (IQR upper bound: "
                       ++ toString upper_bound ++ ")"
                   else
                     "Low value: " ++ toString v ++ " (IQR lower bound: "
                       ++ toString lower_bound ++ ")" }
        else none
  | _, _, _ => []

/-- The `cleaning_report` dict (`Agent1B_cleaner.py` lines 31-38). -/
structure CleaningReport where
  rows_before : ℕ
  rows_after : ℕ
  duplicates_removed : ℕ
  nulls_handled : ℕ
  outliers_detected : List OutlierRec
  dates_fixed : ℕ
deriving Repr, DecidableEq

/-- The state of `DataCleaner.execute` between steps: the working
`cleaned_df` and the report built so far. -/
structure CleanState where
  rows : List CRow
  report : CleaningReport
deriving Repr, DecidableEq

/-- Steps 1-3 of `DataCleaner.execute` (`Agent1B_cleaner.py` lines 30-56):
duplicates, date standardization, missing values, with their report
counters. -/
def cleanerSteps123 (parseDate : String → Option String) (df : List CRow) :
    CleanState :=
  let afterDup := dropDuplicates df
  let afterDates := standardizeDates parseDate afterDup
  let dates_fixed := (afterDates.filter fun r => r.date.isSome).length
  let afterMissing := handleMissingValues afterDates
  { rows := afterMissing.1
    report :=
      { rows_before := df.length
        rows_after := 0
        duplicates_removed := df.length - afterDup.length
        nulls_handled := afterMissing.2
        outliers_detected := []
        dates_fixed := dates_fixed } }

/-- Step 4 of `DataCleaner.execute` (`Agent1B_cleaner.py` lines 58-60):
`outliers = self._detect_outliers(cleaned_df, qty_col)` — the detector's
return value is stored in the report and `cleaned_df` is not reassigned. -/
def cleanerStep4 (s : CleanState) : CleanState :=
  { s with report := { s.report with outliers_detected := detect_outliers s.rows } }

/-- Step 5 of `DataCleaner.execute` (`Agent1B_cleaner.py` lines 62-66):
numeric coercion (already reflected in `qty : Option ℚ`) and dropping the
remaining null quantities, then the final row count. -/
def cleanerStep5 (s : CleanState) : CleanState :=
  let rows := s.rows.filter fun r => r.qty.isSome
  { rows := rows, report := { s.report with rows_after := rows.length } }

/-- Embeds `DataCleaner.execute` (`Agent1B_cleaner.py` lines 21-74). -/
def cleanerExecute (parseDate : String → Option String) (df : List CRow) :
    CleanState :=
  cleanerStep5 (cleanerStep4 (cleanerSteps123 parseDate df))

/-- The urgency rule as the specification states it: days of cover
`current_quantity / (predicted_demand / 30)` with a divide-by-zero guard
(999 days, the source's stand-in for "effectively infinite"), then the
first-match chain URGENT / HIGH / MEDIUM / LOW.  Stated from the claim's
words, to be compared with `determine_urgency` embedded from the source. -/
def urgencySpec (current_qty reorder_point : ℤ) (predicted_demand : ℕ)
    (lead_time_days : ℤ) : String :=
  let days_of_cover : ℚ :=
    if predicted_demand = 0 then 999
    else (current_qty : ℚ) / ((predicted_demand : ℚ) / 30)
  if days_of_cover < (lead_time_days : ℚ) then "URGENT"
  else if current_qty < reorder_point then "HIGH"
  else if days_of_cover < 14 then "MEDIUM"
  else "LOW"

section Lemmas

/-- Python `int()` truncation agrees with the floor on non-negative floats. -/
theorem pyInt_eq_floor_of_nonneg {x : ℚ} (hx : 0 ≤ x) : pyInt x = ⌊x⌋ := by
  unfold pyInt
  rw [if_neg (not_lt.mpr hx)]

/-- Inserting into a sorted list grows the length by one. -/
theorem insertQ_length (x : ℚ) (l : List ℚ) :
    (insertQ x l).length = l.length + 1 := by
  induction l with
  | nil => rfl
  | cons y ys ih =>
    unfold insertQ
    split
    · simp
    · simp [ih]

/-- Sorting preserves the length. -/
theorem sortQ_length (xs : List ℚ) : (sortQ xs).length = xs.length := by
  induction xs with
  | nil => rfl
  | cons x l ih =>
    show (insertQ x (sortQ l)).length = l.length + 1
    rw [insertQ_length, ih]

/-- The pandas quantile is defined exactly on nonempty value lists. -/
theorem quantileLinear_isSome_iff (xs : List ℚ) (q : ℚ) :
    (quantileLinear xs q).isSome ↔ xs ≠ [] := by
  unfold quantileLinear
  rcases h : sortQ xs with _ | ⟨v, vs⟩
  · have : xs.length = 0 := by
      have := sortQ_length xs
      rw [h] at this
      exact this.symm
    simp [List.length_eq_zero.mp this]
  · have : xs.length = vs.length + 1 := by
      have := sortQ_length xs
      rw [h] at this
      simpa using this.symm
    constructor
    · intro _ hxs
      rw [hxs] at this
      simp at this
    · intro _
      simp

/-- Python `min` over a three-element list `[a, b, c]` (first element fed
as the seed): the result is an element of the list, minimises the key, and
is the earliest element attaining the minimum. -/
theorem pyMinBy_three_spec (a b c : ModelScore) :
    (pyMinBy a [b, c] = a ∨ pyMinBy a [b, c] = b ∨ pyMinBy a [b, c] = c)
    ∧ (pyMinBy a [b, c]).mape ≤ a.mape
    ∧ (pyMinBy a [b, c]).mape ≤ b.mape
    ∧ (pyMinBy a [b, c]).mape ≤ c.mape
    ∧ (pyMinBy a [b, c] = a
        ∨ (pyMinBy a [b, c] = b ∧ (pyMinBy a [b, c]).mape < a.mape)
        ∨ (pyMinBy a [b, c] = c ∧ (pyMinBy a [b, c]).mape < a.mape
            ∧ (pyMinBy a [b, c]).mape < b.mape)) := by
  have hdef : pyMinBy a [b, c]
      = if c.mape < (if b.mape < a.mape then b else a).mape then c
        else (if b.mape < a.mape then b else a) := rfl
  by_cases hba : b.mape < a.mape
  · by_cases hcb : c.mape < b.mape
    · have h : pyMinBy a [b, c] = c := by rw [hdef, if_pos hba, if_pos hcb]
      refine ⟨Or.inr (Or.inr h), ?_, ?_, ?_, Or.inr (Or.inr ⟨h, ?_, ?_⟩)⟩ <;>
        rw [h] <;> linarith
    · have h : pyMinBy a [b, c] = b := by
        rw [hdef, if_pos hba, if_neg hcb]
      refine ⟨Or.inr (Or.inl h), ?_, ?_, ?_, Or.inr (Or.inl ⟨h, ?_⟩)⟩ <;>
        rw [h] <;> linarith [not_lt.mp hcb]
  · by_cases hca : c.mape < a.mape
    · have h : pyMinBy a [b, c] = c := by
        rw [hdef, if_neg hba, if_pos hca]
      refine ⟨Or.inr (Or.inr h), ?_, ?_, ?_,
        Or.inr (Or.inr ⟨h, ?_, ?_⟩)⟩ <;>
        rw [h] <;> linarith [not_lt.mp hba]
    · have h : pyMinBy a [b, c] = a := by
        rw [hdef, if_neg hba, if_neg hca]
      refine ⟨Or.inl h, ?_, ?_, ?_, Or.inl h⟩ <;>
        rw [h] <;> linarith [not_lt.mp hba, not_lt.mp hca]

end Lemmas

/-- C1 (counterexample): the claim asserts that every forecasting
implementation maps MAPE 40 to confidence 0.50, but the inline table of
`DataHarmonizerAndForecaster.execute` (`Agent1_complete.py` lines 144-151)
has no 0.50 tier and yields 0.65 at MAPE 40. -/
theorem confidence_table_counterexample :
    completeConfidence 40 = 0.65 ∧ (0.65 : ℚ) ≠ 0.50 := by
  constructor
  · unfold completeConfidence
    norm_num
  · norm_num

/-- C1 (amended): `DemandForecaster._calculate_confidence` realises the
canonical step table (0.95 below 10, 0.85 on [10,15), 0.75 on [15,20),
0.65 on [20,30), 0.50 from 30 up), both confidence mappings are
non-increasing in MAPE, and on inputs 5, 12, 18, 25, 40 the canonical
table gives 0.95, 0.85, 0.75, 0.65, 0.50; the duplicate implementation in
`DataHarmonizerAndForecaster.execute` agrees with it below MAPE 30 but
returns 0.65 instead of 0.50 for every MAPE of 30 or more. -/
theorem confidence_table_amended :
    (∀ m : ℚ,
      (m < 10 → calculate_confidence m = 0.95)
      ∧ (10 ≤ m → m < 15 → calculate_confidence m = 0.85)
      ∧ (15 ≤ m → m < 20 → calculate_confidence m = 0.75)
      ∧ (20 ≤ m → m < 30 → calculate_confidence m = 0.65)
      ∧ (30 ≤ m → calculate_confidence m = 0.50))
    ∧ (∀ m m' : ℚ, m ≤ m' → calculate_confidence m' ≤ calculate_confidence m)
    ∧ (∀ m m' : ℚ, m ≤ m' → completeConfidence m' ≤ completeConfidence m)
    ∧ (∀ m : ℚ, m < 30 → completeConfidence m = calculate_confidence m)
    ∧ (∀ m : ℚ, 30 ≤ m → completeConfidence m = 0.65 ∧ calculate_confidence m = 0.50)
    ∧ calculate_confidence 5 = 0.95 ∧ calculate_confidence 12 = 0.85
    ∧ calculate_confidence 18 = 0.75 ∧ calculate_confidence 25 = 0.65
    ∧ calculate_confidence 40 = 0.50 := by
  refine ⟨?_, ?_, ?_, ?_, ?_, ?_, ?_, ?_, ?_, ?_⟩
  · intro m
    unfold calculate_confidence
    refine ⟨fun h => ?_, fun h1 h2 => ?_, fun h1 h2 => ?_,
      fun h1 h2 => ?_, fun h => ?_⟩ <;>
      split_ifs <;> first | linarith | norm_num
  · intro m m' h
    unfold calculate_confidence
    split_ifs <;> linarith
  · intro m m' h
    unfold completeConfidence
    split_ifs <;> linarith
  · intro m h
    unfold completeConfidence calculate_confidence
    split_ifs <;> first | rfl | linarith
  · intro m h
    unfold completeConfidence calculate_confidence
    constructor <;> split_ifs <;> first | linarith | norm_num
  all_goals unfold calculate_confidence
  all_goals split_ifs <;> first | linarith | norm_num

/-- Witness for `confidence_table_amended` at concrete MAPE inputs. -/
theorem confidence_table_amended_witness :
    calculate_confidence 12 = 0.85 ∧ completeConfidence 35 = 0.65 ∧
      completeConfidence 18 = calculate_confidence 18 := by
  refine ⟨(confidence_table_amended.1 12).2.1 (by norm_num) (by norm_num),
    (confidence_table_amended.2.2.2.2.1 35 (by norm_num)).1,
    confidence_table_amended.2.2.2.1 18 (by norm_num)⟩

/-- C2: the final recommended quantity is the total clamped to the
available space `max_capacity - current_stock` when it exceeds it (and
exactly then `capped` is set), then raised to the fixed minimum order
quantity, which is the constant 100; hence the result is always at least
the minimum, and because the floor is applied after the cap, the result
can exceed the available space. -/
theorem order_quantity_cap_then_minimum :
    (∀ (pd : ℕ) (cs mc lt : ℤ),
      (calculate_order_quantity pd cs mc lt).available_space = mc - cs
      ∧ (calculate_order_quantity pd cs mc lt).final_quantity
          = max MINIMUM_ORDER_QUANTITY
              (min (calculate_order_quantity pd cs mc lt).total_quantity
                (calculate_order_quantity pd cs mc lt).available_space)
      ∧ ((calculate_order_quantity pd cs mc lt).capped = true
          ↔ (calculate_order_quantity pd cs mc lt).available_space
              < (calculate_order_quantity pd cs mc lt).total_quantity)
      ∧ MINIMUM_ORDER_QUANTITY
          ≤ (calculate_order_quantity pd cs mc lt).final_quantity)
    ∧ MINIMUM_ORDER_QUANTITY = 100
    ∧ (∃ (pd : ℕ) (cs mc lt : ℤ),
        (calculate_order_quantity pd cs mc lt).available_space
          < (calculate_order_quantity pd cs mc lt).final_quantity) := by
  refine ⟨fun pd cs mc lt => ?_, rfl, 0, 0, 0, 0,
    by norm_num [calculate_order_quantity, pyInt, SAFETY_BUFFER,
      SAFETY_STOCK_PERCENTAGE, MINIMUM_ORDER_QUANTITY]⟩
  unfold calculate_order_quantity MINIMUM_ORDER_QUANTITY
  dsimp only
  refine ⟨rfl, ?_, ?_, ?_⟩
  · split_ifs <;> omega
  · split_ifs <;> simp_all <;> omega
  · split_ifs <;> omega

/-- C3 (counterexample): the claim says the lead-time and safety-buffer
components use `round`, but the source truncates with `int()`: at
`predicted_demand = 20`, `lead_time_days = 7` the code yields
`int(20/30*7) = 4` while `round(20/30*7) = 5`; at
`predicted_demand = 2503` the code's buffer is `max(500, int(500.6)) = 500`
while the claim's is `max(500, round(500.6)) = 501`. -/
theorem replenishment_rounding_counterexample :
    (calculate_order_quantity 20 0 10000 7).lead_time_demand = 4
    ∧ round ((20 : ℚ) / 30 * 7) = 5
    ∧ (4 : ℤ) ≠ 5
    ∧ (calculate_order_quantity 2503 0 100000 0).safety_stock = 500
    ∧ max (500 : ℤ) (round ((2503 : ℚ) * (2 / 10))) = 501 := by
  refine ⟨by norm_num [calculate_order_quantity, pyInt], ?_, by decide,
    by norm_num [calculate_order_quantity, pyInt, SAFETY_BUFFER,
      SAFETY_STOCK_PERCENTAGE], ?_⟩
  · rw [round_eq]
    norm_num
  · rw [round_eq]
    norm_num

/-- C3 (amended): for non-negative lead time the components are
`base_need = max(0, predicted_demand - current_stock)`,
`safety_stock = max(500, ⌊predicted_demand * 0.20⌋)`,
`lead_time_demand = ⌊(predicted_demand / 30) * lead_time_days⌋` (floor,
i.e. Python `int()` truncation on the non-negative operands, not
rounding), and `total_quantity` is their sum. -/
theorem replenishment_components_amended (pd : ℕ) (cs mc lt : ℤ)
    (hlt : 0 ≤ lt) :
    (calculate_order_quantity pd cs mc lt).base_need = max 0 ((pd : ℤ) - cs)
    ∧ (calculate_order_quantity pd cs mc lt).safety_stock
        = max 500 ⌊(pd : ℚ) * (2 / 10)⌋
    ∧ (calculate_order_quantity pd cs mc lt).lead_time_demand
        = ⌊(pd : ℚ) / 30 * (lt : ℚ)⌋
    ∧ (calculate_order_quantity pd cs mc lt).total_quantity
        = (calculate_order_quantity pd cs mc lt).base_need
          + (calculate_order_quantity pd cs mc lt).safety_stock
          + (calculate_order_quantity pd cs mc lt).lead_time_demand := by
  have hbuf : pyInt ((pd : ℚ) * SAFETY_STOCK_PERCENTAGE) = ⌊(pd : ℚ) * (2 / 10)⌋ := by
    rw [pyInt_eq_floor_of_nonneg (by unfold SAFETY_STOCK_PERCENTAGE; positivity)]
    rfl
  have hlead : pyInt ((pd : ℚ) / 30 * (lt : ℚ)) = ⌊(pd : ℚ) / 30 * (lt : ℚ)⌋ := by
    refine pyInt_eq_floor_of_nonneg ?_
    have h1 : (0 : ℚ) ≤ (pd : ℚ) / 30 := by positivity
    have h2 : (0 : ℚ) ≤ (lt : ℚ) := by exact_mod_cast hlt
    exact mul_nonneg h1 h2
  unfold calculate_order_quantity
  dsimp only
  exact ⟨rfl, by rw [hbuf]; rfl, hlead, rfl⟩

/-- Witness for `replenishment_components_amended` at
`predicted_demand = 20`, `current_stock = 5`, `max_capacity = 10000`,
`lead_time_days = 7`. -/
theorem replenishment_components_amended_witness :
    (0 : ℤ) ≤ 7
    ∧ (calculate_order_quantity 20 5 10000 7).lead_time_demand
        = ⌊(20 : ℚ) / 30 * (7 : ℚ)⌋ :=
  ⟨by decide, (replenishment_components_amended 20 5 10000 7 (by decide)).2.2.1⟩

/-- Helper for C6: the shortage produced by the classification block of
`StockMonitor.execute` is the clamped difference, hence non-negative. -/
theorem stockStatusOf_shortage (item : InventoryItem) :
    (stockStatusOf item).shortage_amount
      = max 0 (item.reorder_point - item.current_quantity)
    ∧ 0 ≤ (stockStatusOf item).shortage_amount := by
  unfold stockStatusOf
  exact ⟨rfl, le_max_left 0 _⟩

/-- C5 (counterexample): at `current_quantity = 0` with a negative
`reorder_point` (nothing in the source constrains the CSV ints to be
non-negative), the status and priority are OUT_OF_STOCK / URGENT but
`needs_reorder = (0 <= -1)` is false, refuting the claim's
"needs_reorder = true regardless of reorder_point value". -/
theorem stock_zero_counterexample :
    (stockStatusOf ⟨"ITM001", "Widget", 0, -1, 100, 0, 7⟩).status = "OUT_OF_STOCK"
    ∧ (stockStatusOf ⟨"ITM001", "Widget", 0, -1, 100, 0, 7⟩).priority = some "URGENT"
    ∧ (stockStatusOf ⟨"ITM001", "Widget", 0, -1, 100, 0, 7⟩).needs_reorder = false := by
  refine ⟨?_, ?_, ?_⟩ <;> decide

/-- C5 (amended): the status and priority follow the first matching rule
in the claimed order, `needs_reorder` is the inclusive comparison
`current_quantity <= reorder_point`, and `current_quantity = 0` always
yields OUT_OF_STOCK / URGENT while `needs_reorder` is then true exactly
when `reorder_point` is non-negative. -/
theorem stock_classification_amended (item : InventoryItem) :
    (stockStatusOf item).needs_reorder
        = decide (item.current_quantity ≤ item.reorder_point)
    ∧ (item.current_quantity ≤ 0 →
        (stockStatusOf item).status = "OUT_OF_STOCK"
        ∧ (stockStatusOf item).priority = some "URGENT")
    ∧ (0 < item.current_quantity →
        item.current_quantity < item.safety_stock →
        (stockStatusOf item).status = "CRITICAL"
        ∧ (stockStatusOf item).priority = some "URGENT")
    ∧ (0 < item.current_quantity →
        item.safety_stock ≤ item.current_quantity →
        (item.current_quantity : ℚ) < (item.reorder_point : ℚ) * (5 / 10) →
        (stockStatusOf item).status = "LOW"
        ∧ (stockStatusOf item).priority = some "HIGH")
    ∧ (0 < item.current_quantity →
        item.safety_stock ≤ item.current_quantity →
        ¬ ((item.current_quantity : ℚ) < (item.reorder_point : ℚ) * (5 / 10)) →
        item.current_quantity ≤ item.reorder_point →
        (stockStatusOf item).status = "LOW"
        ∧ (stockStatusOf item).priority = some "MEDIUM")
    ∧ (0 < item.current_quantity →
        item.safety_stock ≤ item.current_quantity →
        ¬ ((item.current_quantity : ℚ) < (item.reorder_point : ℚ) * (5 / 10)) →
        item.reorder_point < item.current_quantity →
        (stockStatusOf item).status = "ADEQUATE"
        ∧ (stockStatusOf item).priority = none)
    ∧ (item.current_quantity = 0 →
        (stockStatusOf item).status = "OUT_OF_STOCK"
        ∧ (stockStatusOf item).priority = some "URGENT"
        ∧ ((stockStatusOf item).needs_reorder = true ↔ 0 ≤ item.reorder_point)) := by
  unfold stockStatusOf
  dsimp only
  refine ⟨rfl, fun h => ?_, fun h1 h2 => ?_, fun h1 h2 h3 => ?_,
    fun h1 h2 h3 h4 => ?_, fun h1 h2 h3 h4 => ?_, fun h => ?_⟩
  · rw [if_pos h]
    exact ⟨rfl, rfl⟩
  · rw [if_neg (by omega), if_pos h2]
    exact ⟨rfl, rfl⟩
  · rw [if_neg (by omega), if_neg (by omega), if_pos h3]
    exact ⟨rfl, rfl⟩
  · rw [if_neg (by omega), if_neg (by omega), if_neg h3, if_pos h4]
    exact ⟨rfl, rfl⟩
  · rw [if_neg (by omega), if_neg (by omega), if_neg h3, if_neg (by omega)]
    exact ⟨rfl, rfl⟩
  · rw [if_pos (le_of_eq h), h]
    refine ⟨rfl, rfl, ?_⟩
    simp

/-- Witness for `stock_classification_amended`: an item on the LOW/HIGH
rule. -/
theorem stock_classification_amended_witness :
    (stockStatusOf ⟨"ITM001", "Widget", 30, 100, 500, 10, 7⟩).status = "LOW"
    ∧ (stockStatusOf ⟨"ITM001", "Widget", 30, 100, 500, 10, 7⟩).priority
        = some "HIGH" :=
  (stock_classification_amended ⟨"ITM001", "Widget", 30, 100, 500, 10, 7⟩).2.2.2.1
    (by decide) (by decide) (by norm_num)

/-- C6: every stock check computes
`shortage_amount = max(0, reorder_point - current_quantity)`, hence a
non-negative shortage, in `StockMonitor.execute` for any inventory row
(negative stock included) and in
`StockMonitor.check_all_low_stock_items`, where the subtraction is
unclamped in the source but guarded by `current_qty <= reorder_point`. -/
theorem shortage_amount_spec :
    (∀ item : InventoryItem,
      (stockStatusOf item).shortage_amount
        = max 0 (item.reorder_point - item.current_quantity)
      ∧ 0 ≤ (stockStatusOf item).shortage_amount)
    ∧ (∀ (inventory : List InventoryItem) (code : String) (st : StockStatus)
        (it : InventoryItem),
        stockMonitorExecute inventory code = .ok st it →
        st.shortage_amount = max 0 (st.reorder_point - st.current_quantity)
        ∧ 0 ≤ st.shortage_amount)
    ∧ (∀ (inventory : List InventoryItem) (st : StockStatus),
        st ∈ check_all_low_stock_items inventory →
        st.shortage_amount = max 0 (st.reorder_point - st.current_quantity)
        ∧ 0 ≤ st.shortage_amount) := by
  refine ⟨stockStatusOf_shortage, ?_, ?_⟩
  · intro inventory code st it h
    unfold stockMonitorExecute at h
    split at h
    · cases h
    · split at h
      · cases h
      · rename_i item rest heq
        injection h with h1 h2
        subst h1
        exact stockStatusOf_shortage item
  · intro inventory st h
    unfold check_all_low_stock_items at h
    rw [List.mem_filterMap] at h
    obtain ⟨item, hmem, hf⟩ := h
    dsimp only at hf
    split at hf
    · rename_i hle
      injection hf with hf
      subst hf
      dsimp only
      omega
    · cases hf

/-- Witness for `shortage_amount_spec` on a one-row inventory with an
out-of-stock item. -/
theorem shortage_amount_spec_witness :
    ((stockStatusOf ⟨"ITM001", "Widget", 0, 20, 100, 2, 7⟩).shortage_amount
        = max 0 (20 - 0)
      ∧ 0 ≤ (stockStatusOf ⟨"ITM001", "Widget", 0, 20, 100, 2, 7⟩).shortage_amount)
    ∧ ((StockStatus.mk "ITM001" "Widget" 0 20 true 20 "OUT_OF_STOCK"
          (some "URGENT")).shortage_amount
        = max 0 ((StockStatus.mk "ITM001" "Widget" 0 20 true 20 "OUT_OF_STOCK"
            (some "URGENT")).reorder_point
          - (StockStatus.mk "ITM001" "Widget" 0 20 true 20 "OUT_OF_STOCK"
              (some "URGENT")).current_quantity)
      ∧ 0 ≤ (StockStatus.mk "ITM001" "Widget" 0 20 true 20 "OUT_OF_STOCK"
          (some "URGENT")).shortage_amount) := by
  constructor
  · exact shortage_amount_spec.2.1 [⟨"ITM001", "Widget", 0, 20, 100, 2, 7⟩]
      "ITM001" (stockStatusOf ⟨"ITM001", "Widget", 0, 20, 100, 2, 7⟩)
      ⟨"ITM001", "Widget", 0, 20, 100, 2, 7⟩ (by decide)
  · exact shortage_amount_spec.2.2 [⟨"ITM001", "Widget", 0, 20, 100, 2, 7⟩]
      (StockStatus.mk "ITM001" "Widget" 0 20 true 20 "OUT_OF_STOCK"
        (some "URGENT")) (by decide)

/-- C7: `_determine_urgency` never raises (the divide-by-zero is guarded;
in particular `predicted_demand = 0` takes the 999-day sentinel branch)
and returns exactly the claimed first-match rule on
`days_of_cover = current_quantity / (predicted_demand / 30)`. -/
theorem urgency_determination (cq rp : ℤ) (pd : ℕ) (lt : ℤ) :
    determine_urgency cq rp pd lt = .ok (urgencySpec cq rp pd lt) := by
  unfold determine_urgency urgencySpec pyDiv
  by_cases hpd : pd = 0
  · subst hpd
    norm_num
    split_ifs <;> rfl
  · have hpos : (0 : ℚ) < (pd : ℚ) := by
      exact_mod_cast Nat.pos_of_ne_zero hpd
    have h30 : (0 : ℚ) < (pd : ℚ) / 30 := by positivity
    rw [if_pos h30, if_neg (ne_of_gt h30), if_neg hpd]
    show Except.bind (Except.ok _) _ = _
    rw [Except.bind]
    dsimp only
    split_ifs <;> rfl

/-- C10: every call of `DemandForecaster.execute`
(`Agent1C_forecaster.py`) raises `NameError` at its first statement —
line 27 reads `item_code`, which is not in the function's scope — so a
bare exception, not a structured error dict, crosses this component
boundary on every input, contradicting the propagation policy (and the
module's own `__main__` test, which expects a result dict). -/
theorem agent1C_execute_raises (df : List OrderRow)
    (schema : List (String × String)) (fd : ℤ) :
    demandForecasterExecute df schema fd = .error (.nameError "item_code") := by
  unfold demandForecasterExecute
  rfl

/-- C4: the model bank of `DataHarmonizerAndForecaster.execute` evaluates
exactly the three candidates in declaration order, scoring each by
MAPE ×100 against the trailing 20% of the chronological split (the oracle
predictions for the library-fitted models, the constant last-3-mean
forecast for Moving Average); a failed library fit scores the sentinel
999.0 instead; the selected model attains the minimal MAPE and is the
earliest candidate doing so; and no fit failure aborts the request: with
at least 6 months of data the pipeline still returns a result for any
oracle outcome. -/
theorem model_selection_spec (item_code : String) (ts : List ℚ) (o : A1Oracles) :
    (∃ m0 m1 m2 : ModelScore,
      (forecastFromSeries item_code ts o).model_comparison = [m0, m1, m2]
      ∧ m0.name = "Moving Average"
      ∧ m1.name = "Exponential Smoothing"
      ∧ m2.name = "Linear Regression"
      ∧ m0.mape = mean_absolute_percentage_error (ts.drop (pySplitIdx ts.length))
          (List.replicate (ts.drop (pySplitIdx ts.length)).length
            (listMean (lastThree (ts.take (pySplitIdx ts.length))))) * 100
      ∧ (∀ p, o.esTest = some p →
          m1.mape = mean_absolute_percentage_error (ts.drop (pySplitIdx ts.length)) p * 100)
      ∧ (o.esTest = none → m1.mape = 999)
      ∧ (∀ p, o.lrTest = some p →
          m2.mape = mean_absolute_percentage_error (ts.drop (pySplitIdx ts.length)) p * 100)
      ∧ (o.lrTest = none → m2.mape = 999)
      ∧ (forecastFromSeries item_code ts o).best_model.mape ≤ m0.mape
      ∧ (forecastFromSeries item_code ts o).best_model.mape ≤ m1.mape
      ∧ (forecastFromSeries item_code ts o).best_model.mape ≤ m2.mape
      ∧ ((forecastFromSeries item_code ts o).best_model = m0
          ∨ ((forecastFromSeries item_code ts o).best_model = m1
              ∧ (forecastFromSeries item_code ts o).best_model.mape < m0.mape)
          ∨ ((forecastFromSeries item_code ts o).best_model = m2
              ∧ (forecastFromSeries item_code ts o).best_model.mape < m0.mape
              ∧ (forecastFromSeries item_code ts o).best_model.mape < m1.mape)))
    ∧ (∀ rows : List OrderRow,
        6 ≤ (aggregateMonthly (cleanOrderRows rows)).length →
        ∃ out, harmonizerForecasterExecute item_code rows o = .ok out) := by
  constructor
  · obtain ⟨esT, lrT, esF, lrF⟩ := o
    cases esT <;> cases lrT <;>
      · unfold forecastFromSeries
        dsimp only
        refine ⟨_, _, _, rfl, rfl, rfl, rfl, rfl, ?_, ?_, ?_, ?_,
          (pyMinBy_three_spec _ _ _).2.1, (pyMinBy_three_spec _ _ _).2.2.1,
          (pyMinBy_three_spec _ _ _).2.2.2.1, (pyMinBy_three_spec _ _ _).2.2.2.2⟩ <;>
          intros <;>
          first
            | rfl
            | (rename_i hp; cases hp; rfl)
            | (rename_i hp; exact Option.noConfusion hp)
  · intro rows h6
    unfold harmonizerForecasterExecute
    rw [if_neg (by omega)]
    exact ⟨_, rfl⟩

/-- Witness for `model_selection_spec`: with six months of data and both
library fits failing, the pipeline still returns a result. -/
theorem model_selection_spec_witness :
    ∃ out,
      harmonizerForecasterExecute "ITM001"
        [⟨some 0, some 100⟩, ⟨some 1, some 120⟩, ⟨some 2, some 110⟩,
         ⟨some 3, some 130⟩, ⟨some 4, some 125⟩, ⟨some 5, some 140⟩]
        ⟨none, none, none, none⟩ = .ok out :=
  (model_selection_spec "ITM001" [] ⟨none, none, none, none⟩).2
    [⟨some 0, some 100⟩, ⟨some 1, some 120⟩, ⟨some 2, some 110⟩,
     ⟨some 3, some 130⟩, ⟨some 4, some 125⟩, ⟨some 5, some 140⟩]
    (by decide)

/-- C8: when the aggregated monthly series has fewer than 6 months the
pipeline returns the insufficient-data error whose message names the
month count actually found, and produces no forecast; with 6 or more
months it proceeds to a forecast result. -/
theorem insufficient_history_spec (item_code : String) (rows : List OrderRow)
    (o : A1Oracles) :
    ((aggregateMonthly (cleanOrderRows rows)).length < 6 →
      harmonizerForecasterExecute item_code rows o
        = .error ("Need 6+ months, found "
            ++ toString (aggregateMonthly (cleanOrderRows rows)).length
            ++ " months"))
    ∧ (6 ≤ (aggregateMonthly (cleanOrderRows rows)).length →
        ∃ out, harmonizerForecasterExecute item_code rows o = .ok out) := by
  constructor
  · intro h
    unfold harmonizerForecasterExecute
    rw [if_pos h]
  · intro h
    unfold harmonizerForecasterExecute
    rw [if_neg (by omega)]
    exact ⟨_, rfl⟩

/-- Witness for `insufficient_history_spec`: three months of history yield
the error naming "3". -/
theorem insufficient_history_spec_witness :
    harmonizerForecasterExecute "ITM001"
      [⟨some 0, some 100⟩, ⟨some 1, some 110⟩, ⟨some 2, some 120⟩]
      ⟨none, none, none, none⟩ = .error "Need 6+ months, found 3 months" := by
  have h := (insufficient_history_spec "ITM001"
    [⟨some 0, some 100⟩, ⟨some 1, some 110⟩, ⟨some 2, some 120⟩]
    ⟨none, none, none, none⟩).1 (by decide)
  rw [h]
  rfl

/-- Helper for C9: the records returned by `_detect_outliers` correspond
exactly to the rows whose quantity violates the IQR bounds or the
10×-median threshold. -/
theorem detect_outliers_mem (R : List CRow) :
    (∀ o ∈ detect_outliers R, ∃ r ∈ R, r.idx = o.row_index ∧ r.qty = some o.value)
    ∧ ∀ r ∈ R, ∀ v, r.qty = some v →
        ((∃ o ∈ detect_outliers R, o.row_index = r.idx ∧ o.value = v) ↔
          ∃ q1 q3 med,
            quantileLinear (R.filterMap CRow.qty) (1 / 4) = some q1
            ∧ quantileLinear (R.filterMap CRow.qty) (3 / 4) = some q3
            ∧ quantileLinear (R.filterMap CRow.qty) (1 / 2) = some med
            ∧ (v < q1 - 3 * (q3 - q1) ∨ q3 + 3 * (q3 - q1) < v ∨ med * 10 < v)) := by
  by_cases hv : R.filterMap CRow.qty = []
  · have hnone : ∀ q : ℚ, quantileLinear (R.filterMap CRow.qty) q = none := by
      intro q
      have := (quantileLinear_isSome_iff (R.filterMap CRow.qty) q)
      rcases h : quantileLinear (R.filterMap CRow.qty) q with _ | x
      · rfl
      · rw [h] at this
        exact absurd hv (this.mp (by simp))
    have hempty : detect_outliers R = [] := by
      unfold detect_outliers
      dsimp only
      rw [hnone, hnone, hnone]
    constructor
    · intro o ho
      rw [hempty] at ho
      cases ho
    · intro r hr v hqty
      exact absurd (List.mem_filterMap.mpr ⟨r, hr, hqty⟩) (by rw [hv]; simp)
  · obtain ⟨q1, hq1⟩ := Option.isSome_iff_exists.mp
      ((quantileLinear_isSome_iff (R.filterMap CRow.qty) (1 / 4)).mpr hv)
    obtain ⟨q3, hq3⟩ := Option.isSome_iff_exists.mp
      ((quantileLinear_isSome_iff (R.filterMap CRow.qty) (3 / 4)).mpr hv)
    obtain ⟨med, hmed⟩ := Option.isSome_iff_exists.mp
      ((quantileLinear_isSome_iff (R.filterMap CRow.qty) (1 / 2)).mpr hv)
    have hdet : detect_outliers R
        = R.filterMap fun r =>
            match r.qty with
            | none => none
            | some v =>
              if v < q1 - 3 * (q3 - q1) ∨ v > q3 + 3 * (q3 - q1) ∨ v > med * 10 then
                some { row_index := r.idx
                       value := v
                       reason :=
                         if v > med * 10 then
                           "Extreme value: " ++ toString v ++ " (>10x median of "
                             ++ toString med ++ ")"
                         else if v > q3 + 3 * (q3 - q1) then
                           "High value: " ++ toString v ++ " (IQR upper bound: "
                             ++ toString (q3 + 3 * (q3 - q1)) ++ ")"
                         else
                           "Low value: " ++ toString v ++ " (IQR lower bound: "
                             ++ toString (q1 - 3 * (q3 - q1)) ++ ")" }
              else none := by
      unfold detect_outliers
      dsimp only
      rw [hq1, hq3, hmed]
    constructor
    · intro o ho
      rw [hdet, List.mem_filterMap] at ho
      obtain ⟨r, hr, hf⟩ := ho
      rcases hqty : r.qty with _ | v
      · rw [hqty] at hf
        cases hf
      · rw [hqty] at hf
        dsimp only at hf
        split at hf
        · injection hf with hf
          exact ⟨r, hr, by rw [← hf], by rw [hqty, ← hf]⟩
        · cases hf
    · intro r hr v hqty
      constructor
      · rintro ⟨o, ho, hidx, hval⟩
        rw [hdet, List.mem_filterMap] at ho
        obtain ⟨r', hr', hf⟩ := ho
        rcases hqty' : r'.qty with _ | v'
        · rw [hqty'] at hf
          cases hf
        · rw [hqty'] at hf
          dsimp only at hf
          split at hf
          · rename_i hcond
            injection hf with hf
            have hv' : v' = v := by rw [← hval, ← hf]
            subst hv'
            exact ⟨q1, q3, med, hq1, hq3, hmed, hcond⟩
          · cases hf
      · rintro ⟨q1', q3', med', h1', h2', h3', hcond⟩
        rw [hq1] at h1'
        rw [hq3] at h2'
        rw [hmed] at h3'
        injection h1' with e1
        injection h2' with e2
        injection h3' with e3
        subst e1
        subst e2
        subst e3
        set o : OutlierRec :=
          { row_index := r.idx
            value := v
            reason :=
              if v > med * 10 then
                "Extreme value: " ++ toString v ++ " (>10x median of "
                  ++ toString med ++ ")"
              else if v > q3 + 3 * (q3 - q1) then
                "High value: " ++ toString v ++ " (IQR upper bound: "
                  ++ toString (q3 + 3 * (q3 - q1)) ++ ")"
              else
                "Low value: " ++ toString v ++ " (IQR lower bound: "
                  ++ toString (q1 - 3 * (q3 - q1)) ++ ")" } with ho
        refine ⟨o, ?_, by rw [ho], by rw [ho]⟩
        rw [hdet, List.mem_filterMap]
        refine ⟨r, hr, ?_⟩
        rw [hqty]
        dsimp only
        rw [if_pos hcond]

/-- C9: the outlier-detection step of `DataCleaner.execute` never removes
rows — the working rows after step 4 are identical (hence equinumerous) to
the rows entering it — and the report's outlier records are exactly the
rows whose quantity lies outside `[Q1 - 3·IQR, Q3 + 3·IQR]` or exceeds
10× the median, each recorded with its row index and value (the record's
reason string names the matched category). -/
theorem outlier_step_frame (parseDate : String → Option String) (df : List CRow) :
    (cleanerStep4 (cleanerSteps123 parseDate df)).rows
        = (cleanerSteps123 parseDate df).rows
    ∧ (cleanerStep4 (cleanerSteps123 parseDate df)).rows.length
        = (cleanerSteps123 parseDate df).rows.length
    ∧ (∀ o ∈ (cleanerStep4 (cleanerSteps123 parseDate df)).report.outliers_detected,
        ∃ r ∈ (cleanerSteps123 parseDate df).rows,
          r.idx = o.row_index ∧ r.qty = some o.value)
    ∧ ∀ r ∈ (cleanerSteps123 parseDate df).rows, ∀ v, r.qty = some v →
        ((∃ o ∈ (cleanerStep4 (cleanerSteps123 parseDate df)).report.outliers_detected,
            o.row_index = r.idx ∧ o.value = v) ↔
          ∃ q1 q3 med,
            quantileLinear ((cleanerSteps123 parseDate df).rows.filterMap CRow.qty)
                (1 / 4) = some q1
            ∧ quantileLinear ((cleanerSteps123 parseDate df).rows.filterMap CRow.qty)
                (3 / 4) = some q3
            ∧ quantileLinear ((cleanerSteps123 parseDate df).rows.filterMap CRow.qty)
                (1 / 2) = some med
            ∧ (v < q1 - 3 * (q3 - q1) ∨ q3 + 3 * (q3 - q1) < v ∨ med * 10 < v)) := by
  refine ⟨rfl, rfl, ?_, ?_⟩
  · exact (detect_outliers_mem (cleanerSteps123 parseDate df).rows).1
  · exact (detect_outliers_mem (cleanerSteps123 parseDate df).rows).2

/-- Witness for `outlier_step_frame` on five rows whose quantities are
`[10, 10, 10, 10, 1000]`: the outlier step keeps the rows and flags row 4. -/
theorem outlier_step_frame_witness :
    (cleanerStep4 (cleanerSteps123 some
        [⟨0, some "2024-01", some 10⟩, ⟨1, some "2024-02", some 10⟩,
         ⟨2, some "2024-03", some 10⟩, ⟨3, some "2024-04", some 10⟩,
         ⟨4, some "2024-05", some 1000⟩])).rows
      = (cleanerSteps123 some
        [⟨0, some "2024-01", some 10⟩, ⟨1, some "2024-02", some 10⟩,
         ⟨2, some "2024-03", some 10⟩, ⟨3, some "2024-04", some 10⟩,
         ⟨4, some "2024-05", some 1000⟩]).rows
    ∧ ∃ o ∈ (cleanerStep4 (cleanerSteps123 some
        [⟨0, some "2024-01", some 10⟩, ⟨1, some "2024-02", some 10⟩,
         ⟨2, some "2024-03", some 10⟩, ⟨3, some "2024-04", some 10⟩,
         ⟨4, some "2024-05", some 1000⟩])).report.outliers_detected,
        o.row_index = (⟨4, some "2024-05", some 1000⟩ : CRow).idx
        ∧ o.value = 1000 := by
  have hrows : (cleanerSteps123 some
      [⟨0, some "2024-01", some 10⟩, ⟨1, some "2024-02", some 10⟩,
       ⟨2, some "2024-03", some 10⟩, ⟨3, some "2024-04", some 10⟩,
       ⟨4, some "2024-05", some 1000⟩]).rows
      = [⟨0, some "2024-01", some 10⟩, ⟨1, some "2024-02", some 10⟩,
         ⟨2, some "2024-03", some 10⟩, ⟨3, some "2024-04", some 10⟩,
         ⟨4, some "2024-05", some 1000⟩] := by decide
  refine ⟨(outlier_step_frame some _).1,
    ((outlier_step_frame some _).2.2.2 ⟨4, some "2024-05", some 1000⟩ ?_ 1000 rfl).mpr
      ⟨10, 10, 10, ?_, ?_, ?_, Or.inr (Or.inr (by norm_num))⟩⟩
  · rw [hrows]
    decide
  · rw [hrows]
    norm_num [quantileLinear, sortQ, insertQ, List.getD, List.filterMap,
      Int.toNat_ofNat] <;> decide
  · rw [hrows]
    norm_num [quantileLinear, sortQ, insertQ, List.getD, List.filterMap,
      Int.toNat_ofNat] <;> decide
  · rw [hrows]
    norm_num [quantileLinear, sortQ, insertQ, List.getD, List.filterMap,
      Int.toNat_ofNat] <;> decide

end Procurement
